import Mathlib

/-!
Verification development for `confluenc_to_sharepoint.py`, a one-shot batch
migration tool that parses a static Confluence HTML export and re-creates each
page on a SharePoint site as a block-based page canvas.

The development shallowly embeds the pure transformation core of the script
(HTML reference rewriting, anchor fixing, canvas construction, attachment-upload
bookkeeping, link logging) and a step model of the per-page driver loop
`parse_confluence_HTML`, with the remote SharePoint calls modelled by explicit
outcome parameters.  All definitions are executable and kernel-reducible so that
concrete runs can be checked by `decide` / `rfl`.

Conventions:
* HTML trees are the inductive `HtmlNode`; BeautifulSoup's in-place mutation is
  rendered as pure tree rewriting.
* Python string operations that the script uses are re-implemented on `List
  Char` so that they compute inside the kernel (`removeHash` for
  `str.replace("#","")`, `pyStrip` for `str.strip()`, `pyRstrip` for
  `str.rstrip()`, `strContains` for the `in` operator, `basename` for
  `os.path.basename` with `/` separators).
* A Python exception escaping a statement is modelled as `none` (for library
  functions) or as the `aborted` driver outcome (for the page loop, whose
  enclosing `try` terminates the whole run).
-/

/-! ## HTML document model -/

/-- A parsed HTML tree: either a text node (BeautifulSoup `NavigableString`) or
an element with a tag name, an attribute list and children. -/
inductive HtmlNode where
  | text (s : String)
  | elem (nm : String) (attrs : List (String × String)) (children : List HtmlNode)

/-- Attribute lookup, first match wins (BeautifulSoup `tag[key]` read access,
returning `none` where Python would raise `KeyError`). -/
def getAttr : List (String × String) → String → Option String
  | [], _ => none
  | (k, v) :: rest, key => if k == key then some v else getAttr rest key

/-- Attribute write (`tag[key] = val`): replaces the first binding of `key`, or
appends a new binding when absent. -/
def setAttr : List (String × String) → String → String → List (String × String)
  | [], key, val => [(key, val)]
  | (k, v) :: rest, key, val =>
    if k == key then (key, val) :: rest else (k, v) :: setAttr rest key val

/-- Attribute of an element node (text nodes carry no attributes). -/
def attrOf (k : String) : HtmlNode → Option String
  | .text _ => none
  | .elem _ attrs _ => getAttr attrs k

/-- Children of a node (BeautifulSoup `.contents`). -/
def htmlChildren : HtmlNode → List HtmlNode
  | .text _ => []
  | .elem _ _ cs => cs

mutual
/-- Concatenated text of all descendant text nodes (BeautifulSoup `.text`). -/
def textOfNode : HtmlNode → String
  | .text s => s
  | .elem _ _ cs => textOfList cs

def textOfList : List HtmlNode → String
  | [] => ""
  | c :: cs => textOfNode c ++ textOfList cs
end

mutual
/-- Hrefs of all `a` elements that carry an `href` attribute, in document
order, the node itself included (`find_all("a", href=True)` on a soup). -/
def findLinksNode : HtmlNode → List String
  | .text _ => []
  | .elem nm attrs cs =>
    (if nm == "a" then (getAttr attrs "href").toList else []) ++ findLinksList cs

def findLinksList : List HtmlNode → List String
  | [] => []
  | c :: cs => findLinksNode c ++ findLinksList cs
end

/-- `find_all("a", href=True)` called on an element searches its descendants
only, not the element itself. -/
def findLinksTop : HtmlNode → List String
  | .text _ => []
  | .elem _ _ cs => findLinksList cs

/-! ## Python string primitives used by the script -/

/-- `href.replace("#", "")`: removes every `#` character. -/
def removeHash (s : String) : String := ⟨s.data.filter fun c => c != '#'⟩

/-- Python `str.strip()`: trims whitespace from both ends. -/
def pyStrip (s : String) : String :=
  ⟨((s.data.dropWhile Char.isWhitespace).reverse.dropWhile Char.isWhitespace).reverse⟩

/-- Python `str.rstrip()`: trims trailing whitespace. -/
def pyRstrip (s : String) : String :=
  ⟨(s.data.reverse.dropWhile Char.isWhitespace).reverse⟩

/-- Python `pat in s` substring containment. -/
def strContains (s pat : String) : Bool :=
  go s.data
where
  go : List Char → Bool
    | [] => pat.data.isPrefixOf []
    | c :: rest => pat.data.isPrefixOf (c :: rest) || go rest

/-- `os.path.basename` for `/`-separated paths: the part after the last slash
(the script joins with `os.path.join` and optionally rewrites to `\` only for
Windows hosts; the model uses the POSIX form). -/
def basename (p : String) : String :=
  ⟨p.data.foldl (fun acc c => if c == '/' then [] else acc ++ [c]) []⟩

/-! ## Reference Rewriter: `fixAttachmentsPath` (source lines 685-708)

The script iterates the elements matched by
`main_content.find_all(attrs={"data-linked-resource-type": "attachment"})` and
mutates their attributes:

    if attachment.name == 'a':
        attachment['href'] = f"{main_path}/{attachment['href']}"
    elif attachment.name == 'img':
        attachment['src'] = attachment['href'] = f"{main_path}/{attachment['src']}"

A missing attribute raises `KeyError` (modelled as `none`). -/

/-- One iteration of the `fixAttachmentsPath` loop on a single matched element. -/
def fixOneAttachment (mainPath : String) : HtmlNode → Option HtmlNode
  | .elem "a" attrs cs =>
    match getAttr attrs "href" with
    | none => none
    | some h => some (.elem "a" (setAttr attrs "href" (mainPath ++ "/" ++ h)) cs)
  | .elem "img" attrs cs =>
    match getAttr attrs "src" with
    | none => none
    | some s =>
      let v := mainPath ++ "/" ++ s
      some (.elem "img" (setAttr (setAttr attrs "src" v) "href" v) cs)
  | e => some e

/-- `fixAttachmentsPath(attachments)` over the matched element list; the
`except` clause that catches a `KeyError` mid-loop is modelled as `none`. -/
def fixAttachmentsPath (mainPath : String) : List HtmlNode → Option (List HtmlNode)
  | [] => some []
  | e :: es =>
    match fixOneAttachment mainPath e with
    | none => none
    | some e' =>
      match fixAttachmentsPath mainPath es with
      | none => none
      | some es' => some (e' :: es')

/-! ## Reference Rewriter: `fixAnchors` (source lines 711-740)

For each collected link whose href is nonempty and starts with `#`, the script
looks up `main_content.find("h3", {"id": href.replace("#","")})`; when found it
renames the heading tag to `a`, clears its children to the empty string and
appends a fresh `h3` holding `anchor.text.strip()`.  Unmatched anchors are left
untouched. -/

mutual
/-- Whether the tree contains an `h3` element whose `id` equals `x`
(the match condition of `find("h3", {"id": x})`). -/
def hasH3Node : HtmlNode → String → Bool
  | .text _, _ => false
  | .elem nm attrs cs, x =>
    (nm == "h3" && getAttr attrs "id" == some x) || hasH3List cs x

def hasH3List : List HtmlNode → String → Bool
  | [], _ => false
  | c :: cs, x => hasH3Node c x || hasH3List cs x
end

/-- `find` on an element searches descendants only. -/
def hasH3Top : HtmlNode → String → Bool
  | .text _, _ => false
  | .elem _ _ cs, x => hasH3List cs x

mutual
/-- Converts the first `h3` with `id = x` (document order): the tag is renamed
to `a` keeping its attributes, its children become the empty string followed by
a nested `h3` carrying the stripped original text.  The boolean reports whether
a conversion happened. -/
def convertFirstNode : HtmlNode → String → HtmlNode × Bool
  | .text s, _ => (.text s, false)
  | .elem nm attrs cs, x =>
    if nm == "h3" && getAttr attrs "id" == some x then
      (.elem "a" attrs [.text "", .elem "h3" [] [.text (pyStrip (textOfList cs))]], true)
    else
      let r := convertFirstList cs x
      (.elem nm attrs r.1, r.2)

def convertFirstList : List HtmlNode → String → List HtmlNode × Bool
  | [], _ => ([], false)
  | c :: cs, x =>
    let r := convertFirstNode c x
    if r.2 then (r.1 :: cs, true)
    else
      let r2 := convertFirstList cs x
      (c :: r2.1, r2.2)
end

/-- `main_content.find(...)` searches descendants of the root only. -/
def convertAnchorTop : HtmlNode → String → HtmlNode
  | .text s, _ => .text s
  | .elem nm attrs cs, x => .elem nm attrs (convertFirstList cs x).1

/-- `fixAnchors(links, main_content)`: iterates the links' hrefs in document
order; the guard `href != "" and href[0] == "#"` is rendered as
`href.data.head? == some '#'`. -/
def fixAnchors : List String → HtmlNode → HtmlNode
  | [], t => t
  | href :: rest, t =>
    if href.data.head? == some '#' then
      fixAnchors rest (convertAnchorTop t (removeHash href))
    else
      fixAnchors rest t

/-! ## Canvas Builder: `getSPPageCanvas` (source lines 554-683)

For each `img` in the content the script draws three fresh `uuid.uuid4()`
strings, replaces the image with a CKEditor inline-image placeholder `div`
whose inner `div` carries `data-widget='inlineimage'` and
`data-instance-id='{guid}'`, and appends an image web-part dictionary
(`controlType 3`) whose `id`/`instanceId` is the same guid.  After the loop a
rich-text part (`controlType 4`) with the fixed id
`7802ec32-078a-42a7-b455-8eae2538781f` and `innerHTML = str(content)` and a
settings slice (`controlType 0`, no id) are appended.  `img['src']` raises
`KeyError` when absent; the `except` re-raises, modelled as `none`. -/

/-- The three `uuid.uuid4()` draws per image, indexed by draw position. -/
abbrev GuidSupply := Nat → String × String × String

/-- The per-image data collected by the canvas loop: the three fresh guids and
the image source URL. -/
structure ImgRec where
  guid : String
  guid2 : String
  guid3 : String
  src : String
  deriving DecidableEq

/-- Fixed id of the rich-text web part, also stored as `rteInstanceId` on each
image part (source lines 607 and 657). -/
def rtePartId : String := "7802ec32-078a-42a7-b455-8eae2538781f"

/-- Fixed image web-part type id (source lines 606 and 612). -/
def imageWebPartId : String := "d1d91016-032f-456d-98a4-721247c305e8"

/-- The CKEditor placeholder fragment the script parses and swaps in for the
image (source lines 582-594); the encoded `data-cke-widget-data` payload is the
fixed percent-escaped constant of the source. -/
def placeholderElem (guid : String) : HtmlNode :=
  .elem "div"
    [("tabindex", "-1"), ("data-cke-widget-wrapper", "1"), ("data-cke-filter", "off"),
     ("class", "cke_widget_wrapper cke_widget_block cke_widget_inlineimage cke_widget_wrapper_webPartInRteInlineImage cke_widget_wrapper_webPartInRteClear cke_widget_wrapper_webPartInRteAlignCenter cke_widget_wrapper_webPartInRte"),
     ("data-cke-display-name", "div"), ("data-cke-widget-id", "5"), ("role", "region"),
     ("aria-label", "Inline image in RTE. Use Alt + F11 to go to toolbar. Use Alt + P to open the property pane."),
     ("contenteditable", "")]
    [.elem "div"
      [("data-webpart-id", "image"),
       ("class", "webPartInRte webPartInRteAlignCenter webPartInRteClear webPartInRteInlineImage cke_widget_element"),
       ("data-cke-widget-data", "%7B%22classes%22%3A%7B%22webPartInRteInlineImage%22%3A1%2C%22webPartInRteClear%22%3A1%2C%22webPartInRteAlignCenter%22%3A1%2C%22webPartInRte%22%3A1%7D%7D"),
       ("data-cke-widget-upcasted", "1"), ("data-cke-widget-keep-attr", "0"),
       ("data-widget", "inlineimage"), ("data-instance-id", guid), ("title", "")]
      []]

mutual
/-- The image-replacement loop: each `img` element is swapped for
`placeholderElem` of a fresh guid and its record is collected; an `img`
without a `src` attribute raises (`none`).  The `Nat` threads the guid draw
counter. -/
def replaceImgsNode (g : GuidSupply) : HtmlNode → Nat → Option (HtmlNode × List ImgRec × Nat)
  | .text s, n => some (.text s, [], n)
  | .elem nm attrs cs, n =>
    if nm == "img" then
      match getAttr attrs "src" with
      | none => none
      | some src =>
        let t := g n
        some (placeholderElem t.1, [⟨t.1, t.2.1, t.2.2, src⟩], n + 1)
    else
      match replaceImgsList g cs n with
      | none => none
      | some (cs', recs, n') => some (.elem nm attrs cs', recs, n')

def replaceImgsList (g : GuidSupply) : List HtmlNode → Nat → Option (List HtmlNode × List ImgRec × Nat)
  | [], n => some ([], [], n)
  | c :: cs, n =>
    match replaceImgsNode g c n with
    | none => none
    | some (c', recs1, n1) =>
      match replaceImgsList g cs n1 with
      | none => none
      | some (cs', recs2, n2) => some (c' :: cs', recs1 ++ recs2, n2)
end

/-- `content.find_all("img")` matches descendants of `content` only, so the
root node itself is never replaced. -/
def replaceImgsTop (g : GuidSupply) : HtmlNode → Nat → Option (HtmlNode × List ImgRec × Nat)
  | .text s, n => some (.text s, [], n)
  | .elem nm attrs cs, n =>
    match replaceImgsList g cs n with
    | none => none
    | some (cs', recs, n') => some (.elem nm attrs cs', recs, n')

mutual
/-- Number of `img` elements, the node itself included. -/
def countImgsNode : HtmlNode → Nat
  | .text _ => 0
  | .elem nm _ cs => if nm == "img" then 1 else countImgsList cs

def countImgsList : List HtmlNode → Nat
  | [] => 0
  | c :: cs => countImgsNode c + countImgsList cs
end

/-- Number of `img` descendants of the content root (`find_all("img")`). -/
def countImgsTop : HtmlNode → Nat
  | .text _ => 0
  | .elem _ _ cs => countImgsList cs

mutual
/-- The `data-instance-id` values of the inline-image placeholder markers in
the tree, in document order (a marker is a `div` with
`data-widget='inlineimage'`). -/
def placeholdersNode : HtmlNode → List String
  | .text _ => []
  | .elem nm attrs cs =>
    (if nm == "div" && getAttr attrs "data-widget" == some "inlineimage" then
      (getAttr attrs "data-instance-id").toList
    else []) ++ placeholdersList cs

def placeholdersList : List HtmlNode → List String
  | [] => []
  | c :: cs => placeholdersNode c ++ placeholdersList cs
end

/-- One canvas entry.  Fixed metadata of the source dictionaries (position,
reserved sizes, titles, the site/web/list environment ids, default 352×134
dimensions, default flags of the settings slice) is constant per variant and
omitted; the identifier fields and the varying payload are kept. -/
inductive CanvasBlock where
  | image (id : String) (webPartId : String) (rteInstanceId : String)
      (uniqueId : String) (propertiesId : String) (imageSource : String)
  | richText (id : String) (innerHTML : HtmlNode)
  | settings

/-- The image web-part entry built for one collected image record (source
lines 596-654): `id` and `instanceId` are the first guid, `uniqueId` the
second, the `properties.id` the third. -/
def mkImageBlock (r : ImgRec) : CanvasBlock :=
  .image r.guid imageWebPartId rtePartId r.guid2 r.guid3 r.src

/-- `getSPPageCanvas(content)`: image parts in document order, then the
rich-text part holding the rewritten markup, then the settings slice. -/
def getSPPageCanvas (g : GuidSupply) (content : HtmlNode) : Option (List CanvasBlock) :=
  match replaceImgsTop g content 0 with
  | none => none
  | some (content', recs, _) =>
    some (recs.map mkImageBlock ++ [.richText rtePartId content', .settings])

/-- The `controlType` field of each canvas entry (3 image, 4 rich text,
0 settings slice). -/
def controlTypeOf : CanvasBlock → Nat
  | .image _ _ _ _ _ _ => 3
  | .richText _ _ => 4
  | .settings => 0

/-- The `id` field of a canvas entry (the settings slice has none). -/
def CanvasBlock.blockId : CanvasBlock → Option String
  | .image i _ _ _ _ _ => some i
  | .richText i _ => some i
  | .settings => none

/-- Identifiers of the image entries of a canvas, in order. -/
def imageIds (c : List CanvasBlock) : List String :=
  c.filterMap fun b =>
    match b with
    | .image i _ _ _ _ _ => some i
    | _ => none

/-- The rich-text entries of a canvas: id and markup. -/
def richTexts (c : List CanvasBlock) : List (String × HtmlNode) :=
  c.filterMap fun b =>
    match b with
    | .richText i h => some (i, h)
    | _ => none

/-- All block identifiers of a canvas, in order. -/
def blockIds (c : List CanvasBlock) : List String :=
  c.filterMap CanvasBlock.blockId

/-- The first components of the guid triples drawn for positions
`n, n+1, …, n+k-1`. -/
def guidSeg (g : GuidSupply) (n k : Nat) : List String :=
  (List.range' n k).map fun i => (g i).1

/-! ## Target Content Store outcomes and `add_edit_page` (source lines 425-552)

`add_edit_page` (called by the driver with `page_id = None`) performs two
round trips: it creates the page shell, saves a draft with the title layout and
publishes it; then it queries the pages list for the newly created item.  Only
when that query returns an item does it check the page out again, save the
draft with the canvas and republish, returning the page record.  When the query
returns no item the function falls through to `return None` — the canvas is
never attached.  Any SharePoint exception is caught, logged and re-raised. -/

/-- Per-page behaviour of the remote store, one flag per round trip. -/
structure StoreEnv where
  /-- the create/save-draft/publish round trip for the page shell raises -/
  shellRaises : Bool
  /-- the post-publish CAML item lookup: `some url` when it returns the page
  item with its server-relative URL, `none` when it returns no rows -/
  itemFound : Option String
  /-- the second round trip (field update, checkout, save draft with the
  canvas, publish) raises -/
  canvasRaises : Bool

/-- Result of `add_edit_page`: a page record, the `return None` fall-through,
or a re-raised exception. -/
inductive AddEditResult where
  | ok (url : String)
  | noItem
  | exc
  deriving DecidableEq

/-- `add_edit_page` on the driver path (`page_id = None`). -/
def add_edit_page (s : StoreEnv) : AddEditResult :=
  if s.shellRaises then .exc
  else
    match s.itemFound with
    | none => .noItem
    | some url => if s.canvasRaises then .exc else .ok url

/-! ## Attachment upload: `add_attachments` (source lines 304-361)

Per requested path: a missing local file yields a "not found" entry; otherwise
the target folder is filtered by `Name eq '<basename>'` and, when a file of
that name exists and `overwrite` is false, a "file exists" entry carrying the
existing descriptor is recorded and the upload is skipped; otherwise the bytes
are uploaded.  The remote folder is the state threaded through the loop. -/

/-- A SharePoint file descriptor as read back by the script. -/
structure FileDescriptor where
  name : String
  serverRelativeUrl : String
  deriving DecidableEq

/-- One `result[path]` entry. -/
structure UploadEntry where
  result : String
  name : Option String := none
  serverRelativeUrl : Option String := none
  deriving DecidableEq

/-- One iteration of the `add_attachments` loop.  `localFiles` models
`os.path.exists`; `uploadUrl` models the server-relative URL the store assigns
to an uploaded name; the returned folder is the remote folder state after the
iteration. -/
def add_attachments_step (localFiles : List String) (uploadUrl : String → String)
    (overwrite : Bool) (folder : List FileDescriptor) (path : String) :
    UploadEntry × List FileDescriptor :=
  if localFiles.contains path = false then
    ({ result := "Not uploaded: File not found. Check the file name and try again" }, folder)
  else
    let filename := basename path
    match folder.filter (fun d => d.name == filename) with
    | d :: _ =>
      if overwrite = false then
        ({ result := "Not uploaded: File exists and overwrite is set to false",
           name := some d.name, serverRelativeUrl := some d.serverRelativeUrl }, folder)
      else
        ({ result := "File upload completed", name := some filename,
           serverRelativeUrl := some (uploadUrl filename) },
         folder.map fun e => if e.name == filename then ⟨filename, uploadUrl filename⟩ else e)
    | [] =>
      ({ result := "File upload completed", name := some filename,
         serverRelativeUrl := some (uploadUrl filename) },
       folder ++ [⟨filename, uploadUrl filename⟩])

/-- `add_attachments(files_to_add, page_folder, overwrite)`: the per-path
status entries in request order together with the final remote folder state. -/
def add_attachments (localFiles : List String) (uploadUrl : String → String)
    (files_to_add : List String) (overwrite : Bool) (folder : List FileDescriptor) :
    List (String × UploadEntry) × List FileDescriptor :=
  match files_to_add with
  | [] => ([], folder)
  | p :: ps =>
    let r := add_attachments_step localFiles uploadUrl overwrite folder p
    let rest := add_attachments localFiles uploadUrl ps overwrite r.2
    ((p, r.1) :: rest.1, rest.2)

/-! ## Link audit log: `logLinks` (source lines 742-771)

The loop body `href = link["href"]` is the entire body of the `for` statement;
the subsequent `if any(match in href for match in matches): … logging.info(…)`
sits at function level, so it runs once, after the loop, over the loop
variables' final values.  With an empty link list `href` is unbound and the
`except` swallows the `NameError` (modelled `none`). -/

/-- A link as consumed by `logLinks`: its href and its text. -/
structure LinkRec where
  href : String
  text : String
  deriving DecidableEq

/-- `logLinks(links, page_url)`: the log lines appended to `logfile.log`. -/
def logLinks (links : List LinkRec) (pageUrl : String) : Option (List String) :=
  match links.getLast? with
  | none => none
  | some last =>
    if strContains last.href "html" then
      some ["Link: " ++ last.href ++ ". Text: " ++ last.text ++ ". URL: " ++ pageUrl ++ "  "]
    else
      some []

/-! ## Migration driver: `parse_confluence_HTML` (source lines 102-197)

The whole index loop sits in one `try`; any exception escaping a page's
processing is caught by the function-level handler, which returns `False` —
the remaining index entries are never processed.  Per page the driver:
skips entries whose file is missing (`os.path.isfile` guard, lines 148);
dereferences `select_one("#main-content")` — `None` when the container is
absent, so `len(main_content.contents)` raises `AttributeError` (line 152);
`continue`s on empty content (line 152); collects links and fixes anchors
(lines 169-171); builds the canvas (line 173, exceptions re-raised); calls
`add_edit_page` (line 179, exceptions re-raised); when links remain it calls
`logLinks(links, page["url"])` — a `TypeError` when `add_edit_page` returned
`None` (line 183); finally renames the source file with the `_complete`
suffix (line 187).  Author lookup, element removal and attachment upload
(lines 157-167) catch their exceptions internally and never alter control
flow, so they do not appear in the step model. -/

/-- Everything that determines one index entry's processing: whether the page
file exists, the parsed `#main-content` subtree (`none` when the container is
absent from the page), and the store's behaviour for this page. -/
structure PageEnv where
  fileExists : Bool
  content : Option HtmlNode
  store : StoreEnv

/-- The emptiness test of line 152:
`len(main_content.contents) == 0 or len(main_content.text.rstrip()) == 0`. -/
def isEmptyContent (mc : HtmlNode) : Bool :=
  (htmlChildren mc).isEmpty || (pyRstrip (textOfNode mc)).length == 0

/-- Outcome of one index entry. -/
inductive PageStepResult where
  | missingFile
  | skippedEmpty
  | renamed
  | aborted
  deriving DecidableEq

/-- One iteration of the page loop. -/
def processPage (g : GuidSupply) (env : PageEnv) : PageStepResult :=
  if env.fileExists = false then .missingFile
  else
    match env.content with
    | none => .aborted
    | some mc =>
      if isEmptyContent mc then .skippedEmpty
      else
        let mc2 := fixAnchors (findLinksTop mc) mc
        match getSPPageCanvas g mc2 with
        | none => .aborted
        | some _ =>
          match add_edit_page env.store with
          | .exc => .aborted
          | .noItem =>
            if (findLinksTop mc2).isEmpty then .renamed else .aborted
          | .ok _ => .renamed

/-- The index loop: processes entries in order and stops at the first
exception (the function-level `except` returns `False`). -/
def parseLoop (g : GuidSupply) : List PageEnv → Bool × List PageStepResult
  | [] => (true, [])
  | e :: es =>
    let r := processPage g e
    if r = .aborted then (false, [PageStepResult.aborted])
    else
      let rest := parseLoop g es
      (rest.1, r :: rest.2)

/-- `parse_confluence_HTML(path, …)`: an unreadable export root or missing
`index.html` is fatal before any page is processed (lines 123-125); otherwise
the index entries are processed in order. -/
def parse_confluence_HTML (g : GuidSupply) (indexOk : Bool) (envs : List PageEnv) :
    Bool × List PageStepResult :=
  if indexOk = false then (false, [])
  else parseLoop g envs

/-! ## Concrete instances used by the claim checks -/

/-- A page body with no images and no links. -/
def plainContent : HtmlNode := .elem "div" [] [.text "hello world"]

/-- A page body holding one embedded image followed by text. -/
def imgContent : HtmlNode :=
  .elem "div" [] [.elem "img" [("src", "pic.png")] [], .text "tail"]

/-- A store that answers every round trip (item found at a fixed URL). -/
def allOkStore : StoreEnv :=
  { shellRaises := false, itemFound := some "/sites/x/SitePages/p.aspx", canvasRaises := false }

/-- A store whose first round trip (create/save/publish of the shell) raises. -/
def shellFailStore : StoreEnv :=
  { shellRaises := true, itemFound := none, canvasRaises := false }

/-- A store that creates and publishes the shell but whose post-publish item
query returns no rows, so `add_edit_page` falls through to `return None`
without ever attaching the canvas. -/
def noItemStore : StoreEnv :=
  { shellRaises := false, itemFound := none, canvasRaises := false }

/-- A healthy page entry. -/
def okPageEnv : PageEnv :=
  { fileExists := true, content := some plainContent, store := allOkStore }

/-- A page whose store interaction fails on the first round trip. -/
def storeFailPageEnv : PageEnv :=
  { fileExists := true, content := some plainContent, store := shellFailStore }

/-- An index entry whose page file is missing on disk. -/
def missingFilePageEnv : PageEnv :=
  { fileExists := false, content := none, store := allOkStore }

/-- A page whose main content renders to whitespace only. -/
def emptyPageEnv : PageEnv :=
  { fileExists := true, content := some (.elem "div" [] [.text "   "]), store := allOkStore }

/-- A page whose HTML has no `#main-content` container at all
(`select_one` returns `None`). -/
def absentContentPageEnv : PageEnv :=
  { fileExists := true, content := none, store := allOkStore }

/-- A link-free page against the `noItemStore`. -/
def noItemPageEnv : PageEnv :=
  { fileExists := true, content := some plainContent, store := noItemStore }

/-- Guid supply for the concrete driver runs. -/
def runSupply : GuidSupply := fun _ => ("r-img", "r-unique", "r-props")

/-- Guid supply of a first build of `imgContent`. -/
def retrySupplyA : GuidSupply := fun _ => ("A0-img", "A0-unique", "A0-props")

/-- Guid supply of a second build (retry) of `imgContent`: every drawn guid is
fresh, none collides with the first build's. -/
def retrySupplyB : GuidSupply := fun _ => ("B0-img", "B0-unique", "B0-props")

/-- The canvas the first build produces. -/
def retryCanvasA : List CanvasBlock :=
  [.image "A0-img" imageWebPartId rtePartId "A0-unique" "A0-props" "pic.png",
   .richText rtePartId (.elem "div" [] [placeholderElem "A0-img", .text "tail"]),
   .settings]

/-- The canvas the retry build produces. -/
def retryCanvasB : List CanvasBlock :=
  [.image "B0-img" imageWebPartId rtePartId "B0-unique" "B0-props" "pic.png",
   .richText rtePartId (.elem "div" [] [placeholderElem "B0-img", .text "tail"]),
   .settings]

/-- An attachment anchor as exported (relative href), matched by the
`data-linked-resource-type` query. -/
def relAnchor : HtmlNode :=
  .elem "a" [("data-linked-resource-type", "attachment"), ("href", "attachments/fig1.png")]
    [.text "fig1"]

/-- The same anchor after one rewrite against base `https://sp.example/assets`. -/
def absAnchor : HtmlNode :=
  .elem "a"
    [("data-linked-resource-type", "attachment"),
     ("href", "https://sp.example/assets/attachments/fig1.png")]
    [.text "fig1"]

/-- The anchor after a second rewrite: the base has been prepended again. -/
def doubleAnchor : HtmlNode :=
  .elem "a"
    [("data-linked-resource-type", "attachment"),
     ("href", "https://sp.example/assets/https://sp.example/assets/attachments/fig1.png")]
    [.text "fig1"]

/-- A main-content fragment whose heading is an `h2` (not `h3`) with an
in-page link pointing at it. -/
def h2AnchorPage : HtmlNode :=
  .elem "div" [("id", "main-content")]
    [.elem "h2" [("id", "intro")] [.text "Introduction"],
     .elem "a" [("href", "#intro")] [.text "jump to intro"]]


/-! ## Helper lemmas -/

theorem getAttr_setAttr_self (A : List (String × String)) (k v : String) :
    getAttr (setAttr A k v) k = some v := by
  induction A with
  | nil => simp [setAttr, getAttr]
  | cons p rest ih =>
    by_cases h : p.1 == k
    · simp [setAttr, getAttr, h]
    · simp [setAttr, getAttr, h, ih]

theorem getAttr_setAttr_other (A : List (String × String)) (k k' v : String)
    (h : (k == k') = false) : getAttr (setAttr A k v) k' = getAttr A k' := by
  induction A with
  | nil => simp [setAttr, getAttr, h]
  | cons p rest ih =>
    by_cases hp : p.1 == k
    · have hne : p.1 = k := by simpa using hp
      simp [setAttr, getAttr, hp, hne, h]
    · simp [setAttr, getAttr, hp, ih]

@[simp] theorem placeholders_placeholderElem (gid : String) :
    placeholdersNode (placeholderElem gid) = [gid] := rfl

mutual
theorem replaceImgsNode_spec (g : GuidSupply) (c : HtmlNode) (n : Nat)
    (c' : HtmlNode) (recs : List ImgRec) (n' : Nat)
    (h : replaceImgsNode g c n = some (c', recs, n')) :
    recs.length = countImgsNode c ∧ n' = n + countImgsNode c ∧
      recs.map ImgRec.guid = guidSeg g n (countImgsNode c) ∧
      (placeholdersNode c = [] → placeholdersNode c' = recs.map ImgRec.guid) := by
  cases c with
  | text s =>
    simp [replaceImgsNode] at h
    simp [← h.1, ← h.2.2, countImgsNode, guidSeg, h.2.1, placeholdersNode]
  | elem nm attrs cs =>
    by_cases hnm : nm == "img"
    · simp only [replaceImgsNode, hnm, if_pos] at h
      match hsrc : getAttr attrs "src" with
      | none => rw [hsrc] at h; simp at h
      | some src =>
        rw [hsrc] at h
        simp at h
        obtain ⟨h1, h2, h3⟩ := h
        subst h2
        simp [countImgsNode, hnm, ← h3, guidSeg, List.range', ← h1]
    · simp only [replaceImgsNode, hnm, Bool.false_eq_true, if_false] at h
      match hcs : replaceImgsList g cs n with
      | none => rw [hcs] at h; simp at h
      | some (cs', recs2, n2) =>
        rw [hcs] at h
        simp at h
        obtain ⟨h1, h2, h3⟩ := h
        have ih := replaceImgsList_spec g cs n cs' recs2 n2 hcs
        subst h2 h3
        subst h1
        refine ⟨by simpa [countImgsNode, hnm] using ih.1,
          by simpa [countImgsNode, hnm] using ih.2.1,
          by simpa [countImgsNode, hnm] using ih.2.2.1, ?_⟩
        intro hp
        simp only [placeholdersNode] at hp ⊢
        rcases List.append_eq_nil.mp hp with ⟨hp1, hp2⟩
        rw [hp1, List.nil_append, ih.2.2.2 hp2]

theorem replaceImgsList_spec (g : GuidSupply) (cs : List HtmlNode) (n : Nat)
    (cs' : List HtmlNode) (recs : List ImgRec) (n' : Nat)
    (h : replaceImgsList g cs n = some (cs', recs, n')) :
    recs.length = countImgsList cs ∧ n' = n + countImgsList cs ∧
      recs.map ImgRec.guid = guidSeg g n (countImgsList cs) ∧
      (placeholdersList cs = [] → placeholdersList cs' = recs.map ImgRec.guid) := by
  cases cs with
  | nil =>
    simp [replaceImgsList] at h
    obtain ⟨h1, h2, h3⟩ := h
    subst h1; subst h2; subst h3
    simp [countImgsList, guidSeg, placeholdersList]
  | cons c cs =>
    simp only [replaceImgsList] at h
    match hc : replaceImgsNode g c n with
    | none => rw [hc] at h; simp at h
    | some (c', recs1, n1) =>
      rw [hc] at h
      dsimp only at h
      match hcs : replaceImgsList g cs n1 with
      | none => rw [hcs] at h; simp at h
      | some (cs2, recs2, n2) =>
        rw [hcs] at h
        simp at h
        obtain ⟨h1, h2, h3⟩ := h
        have ih1 := replaceImgsNode_spec g c n c' recs1 n1 hc
        have ih2 := replaceImgsList_spec g cs n1 cs2 recs2 n2 hcs
        subst h2 h3
        subst h1
        refine ⟨by simp [countImgsList, ih1.1, ih2.1], ?_, ?_, ?_⟩
        · simp [countImgsList, ih1.2.1, ih2.2.1]; omega
        · simp only [countImgsList, List.map_append, ih1.2.2.1, ih2.2.2.1]
          rw [ih1.2.1]
          unfold guidSeg
          rw [← List.map_append, List.range'_append_1, Nat.add_comm]
        · intro hp
          simp only [placeholdersList] at hp ⊢
          rcases List.append_eq_nil.mp hp with ⟨hp1, hp2⟩
          rw [ih1.2.2.2 hp1, ih2.2.2.2 hp2, List.map_append]
end

theorem replaceImgsTop_spec (g : GuidSupply) (t : HtmlNode) (n : Nat)
    (t' : HtmlNode) (recs : List ImgRec) (n' : Nat)
    (h : replaceImgsTop g t n = some (t', recs, n')) :
    recs.length = countImgsTop t ∧ n' = n + countImgsTop t ∧
      recs.map ImgRec.guid = guidSeg g n (countImgsTop t) ∧
      (placeholdersNode t = [] → placeholdersNode t' = recs.map ImgRec.guid) := by
  cases t with
  | text s =>
    simp [replaceImgsTop] at h
    simp [← h.1, ← h.2.2, countImgsTop, guidSeg, h.2.1, placeholdersNode]
  | elem nm attrs cs =>
    simp only [replaceImgsTop] at h
    match hcs : replaceImgsList g cs n with
    | none => rw [hcs] at h; simp at h
    | some (cs', recs2, n2) =>
      rw [hcs] at h
      simp at h
      obtain ⟨h1, h2, h3⟩ := h
      have ih := replaceImgsList_spec g cs n cs' recs2 n2 hcs
      subst h2 h3
      subst h1
      refine ⟨by simpa [countImgsTop] using ih.1,
        by simpa [countImgsTop] using ih.2.1,
        by simpa [countImgsTop] using ih.2.2.1, ?_⟩
      intro hp
      simp only [placeholdersNode] at hp ⊢
      rcases List.append_eq_nil.mp hp with ⟨hp1, hp2⟩
      rw [hp1, List.nil_append, ih.2.2.2 hp2]

theorem imageIds_build (recs : List ImgRec) (t2 : HtmlNode) :
    imageIds (recs.map mkImageBlock ++ [.richText rtePartId t2, .settings])
      = recs.map ImgRec.guid := by
  induction recs with
  | nil => rfl
  | cons r rest ih => simpa [imageIds, mkImageBlock, List.filterMap] using ih

theorem blockIds_build (recs : List ImgRec) (t2 : HtmlNode) :
    blockIds (recs.map mkImageBlock ++ [.richText rtePartId t2, .settings])
      = recs.map ImgRec.guid ++ [rtePartId] := by
  induction recs with
  | nil => rfl
  | cons r rest ih => simpa [blockIds, mkImageBlock, CanvasBlock.blockId, List.filterMap] using ih

theorem richTexts_build (recs : List ImgRec) (t2 : HtmlNode) :
    richTexts (recs.map mkImageBlock ++ [.richText rtePartId t2, .settings])
      = [(rtePartId, t2)] := by
  induction recs with
  | nil => rfl
  | cons r rest ih => simp [richTexts, mkImageBlock, List.filterMap, ih]

theorem controlTypes_build (recs : List ImgRec) (t2 : HtmlNode) :
    (recs.map mkImageBlock ++
        [CanvasBlock.richText rtePartId t2, CanvasBlock.settings]).map controlTypeOf
      = List.replicate recs.length 3 ++ [4, 0] := by
  induction recs with
  | nil => rfl
  | cons r rest ih => simpa [mkImageBlock, controlTypeOf, List.replicate] using ih

mutual
theorem convertFirstNode_no_match (c : HtmlNode) (x : String)
    (h : hasH3Node c x = false) : convertFirstNode c x = (c, false) := by
  cases c with
  | text s => rfl
  | elem nm attrs cs =>
    simp only [hasH3Node, Bool.or_eq_false_iff] at h
    obtain ⟨h1, h2⟩ := h
    simp [convertFirstNode, h1, convertFirstList_no_match cs x h2]

theorem convertFirstList_no_match (cs : List HtmlNode) (x : String)
    (h : hasH3List cs x = false) : convertFirstList cs x = (cs, false) := by
  cases cs with
  | nil => rfl
  | cons c cs =>
    simp only [hasH3List, Bool.or_eq_false_iff] at h
    obtain ⟨h1, h2⟩ := h
    simp [convertFirstList, convertFirstNode_no_match c x h1,
      convertFirstList_no_match cs x h2]
end

theorem convertFirstList_append (pre post : List HtmlNode) (node node' : HtmlNode)
    (x : String) (hpre : hasH3List pre x = false)
    (hnode : convertFirstNode node x = (node', true)) :
    convertFirstList (pre ++ node :: post) x = (pre ++ node' :: post, true) := by
  induction pre with
  | nil => simp [convertFirstList, hnode]
  | cons p rest ih =>
    rw [hasH3List, Bool.or_eq_false_iff] at hpre
    rw [List.cons_append, convertFirstList, convertFirstNode_no_match p x hpre.1]
    simp [ih hpre.2]

theorem parseLoop_all_ok (g : GuidSupply) (envs : List PageEnv)
    (hall : ∀ x ∈ envs, processPage g x ≠ PageStepResult.aborted) :
    parseLoop g envs = (true, envs.map (processPage g)) := by
  induction envs with
  | nil => rfl
  | cons e es ih =>
    rw [parseLoop]
    simp only [if_neg (hall e (by simp))]
    rw [ih fun x hx => hall x (by simp [hx])]
    simp

/-! ## Claim theorems -/

/-- Claim C2, counterexample: reference rewriting is not idempotent.  Rewriting
the already-rewritten anchor `absAnchor` against the same base prepends the
base a second time, so `rewrite (rewrite p base) base ≠ rewrite p base`: the
second application is not a no-op and the already-absolute URL is re-prefixed. -/
theorem fixAttachmentsPath_idempotence_cex :
    fixAttachmentsPath "https://sp.example/assets" [relAnchor] = some [absAnchor] ∧
    fixAttachmentsPath "https://sp.example/assets" [absAnchor] = some [doubleAnchor] ∧
    attrOf "href" doubleAnchor ≠ attrOf "href" absAnchor ∧
    fixAttachmentsPath "https://sp.example/assets" [absAnchor] ≠ some [absAnchor] := by
  refine ⟨rfl, rfl, by decide, ?_⟩
  intro hcontra
  have h2 := congrArg (fun o => (o.getD []).map (attrOf "href")) hcontra
  exact absurd h2 (by decide)

/-- Claim C2 (amended): `fixAttachmentsPath` unconditionally prepends
`base ++ "/"` to an anchor's `href` on every application, so a second
application rewrites the already-absolute URL to `base/base/h`, which always
differs from `base/h` — rewriting is not idempotent and already-absolute URLs
are re-prefixed. -/
theorem fixAttachmentsPath_reprefixes (base h : String) (attrs : List (String × String))
    (cs : List HtmlNode) :
    fixOneAttachment base (.elem "a" (("href", h) :: attrs) cs)
      = some (.elem "a" (("href", base ++ "/" ++ h) :: attrs) cs) ∧
    fixOneAttachment base (.elem "a" (("href", base ++ "/" ++ h) :: attrs) cs)
      = some (.elem "a" (("href", base ++ "/" ++ (base ++ "/" ++ h)) :: attrs) cs) ∧
    base ++ "/" ++ (base ++ "/" ++ h) ≠ base ++ "/" ++ h := by
  refine ⟨rfl, rfl, ?_⟩
  intro heq
  have hlen := congrArg String.length heq
  simp [String.length_append] at hlen
  exact absurd hlen.2 (by decide)

/-- Claim C10: for an `img` element carrying `src = s`, `fixAttachmentsPath`
sets both its `src` and its (normally absent on images) `href` attribute to the
same absolute URL `base ++ "/" ++ s`. -/
theorem fixOneAttachment_img_sets_src_and_href (base s : String)
    (attrs : List (String × String)) (cs : List HtmlNode)
    (h : getAttr attrs "src" = some s) :
    (fixOneAttachment base (.elem "img" attrs cs)).bind (attrOf "src")
        = some (base ++ "/" ++ s) ∧
    (fixOneAttachment base (.elem "img" attrs cs)).bind (attrOf "href")
        = some (base ++ "/" ++ s) := by
  have e1 : fixOneAttachment base (.elem "img" attrs cs)
      = some (.elem "img"
          (setAttr (setAttr attrs "src" (base ++ "/" ++ s)) "href" (base ++ "/" ++ s)) cs) := by
    simp [fixOneAttachment, h]
  rw [e1]
  constructor
  · simp [Option.bind, attrOf,
      getAttr_setAttr_other _ "href" "src" _ (by decide), getAttr_setAttr_self]
  · simp [Option.bind, attrOf, getAttr_setAttr_self]

/-- Witness for claim C10 at a concrete image element. -/
theorem fixOneAttachment_img_sets_src_and_href_witness :
    getAttr [("src", "img/p.png"), ("alt", "p")] "src" = some "img/p.png" ∧
    ((fixOneAttachment "https://sp.example/assets"
          (.elem "img" [("src", "img/p.png"), ("alt", "p")] [])).bind (attrOf "src")
        = some ("https://sp.example/assets" ++ "/" ++ "img/p.png") ∧
     (fixOneAttachment "https://sp.example/assets"
          (.elem "img" [("src", "img/p.png"), ("alt", "p")] [])).bind (attrOf "href")
        = some ("https://sp.example/assets" ++ "/" ++ "img/p.png")) :=
  ⟨rfl, fixOneAttachment_img_sets_src_and_href "https://sp.example/assets" "img/p.png"
    [("src", "img/p.png"), ("alt", "p")] [] rfl⟩

/-- Claim C7, counterexample: `fixAnchors` only looks for `h3` headings.  In a
fragment whose heading with `id="intro"` is an `h2`, the link `href="#intro"`
is present, yet anchor fixing leaves the whole fragment unchanged — the heading
does not become a clickable self-referencing link. -/
theorem fixAnchors_h2_heading_cex :
    findLinksTop h2AnchorPage = ["#intro"] ∧
    fixAnchors ["#intro"] h2AnchorPage = h2AnchorPage := ⟨rfl, rfl⟩

/-- Claim C7 (amended): for an `h3` heading with `id = x` and a link whose
href is `#x`, anchor fixing renames the first such heading to an `a` element
(keeping its attributes, gaining no href) whose children are the empty string
and a nested `h3` holding the original heading text stripped of surrounding
whitespace; a link whose fragment matches no `h3` heading leaves the content
unchanged — never an error, never dropped. -/
theorem fixAnchors_h3_conversion
    (href x ctxName : String) (ctxAttrs attrs : List (String × String))
    (pre post kids : List HtmlNode) (t2 : HtmlNode) (href2 : String)
    (h1 : href.data.head? = some '#')
    (h2 : removeHash href = x)
    (h3 : hasH3List pre x = false)
    (h4 : hasH3Top t2 (removeHash href2) = false) :
    fixAnchors [href]
        (.elem ctxName ctxAttrs (pre ++ .elem "h3" (("id", x) :: attrs) kids :: post))
      = .elem ctxName ctxAttrs
          (pre ++ .elem "a" (("id", x) :: attrs)
              [.text "", .elem "h3" [] [.text (pyStrip (textOfList kids))]] :: post) ∧
    fixAnchors [href2] t2 = t2 := by
  constructor
  · have hconv : convertFirstNode (.elem "h3" (("id", x) :: attrs) kids) x
        = (.elem "a" (("id", x) :: attrs)
            [.text "", .elem "h3" [] [.text (pyStrip (textOfList kids))]], true) := by
      simp [convertFirstNode, getAttr]
    rw [fixAnchors, if_pos (by simp [h1]), h2, fixAnchors, convertAnchorTop,
      convertFirstList_append pre post _ _ x h3 hconv]
  · rw [fixAnchors]
    by_cases hg : (href2.data.head? == some '#') = true
    · rw [if_pos hg, fixAnchors]
      cases t2 with
      | text s => rfl
      | elem nm attrs2 cs2 =>
        rw [convertAnchorTop,
          convertFirstList_no_match cs2 _ (by simpa [hasH3Top] using h4)]
    · rw [if_neg hg, fixAnchors]

/-- Witness for claim C7 (amended) at a concrete heading and a concrete
unmatched link. -/
theorem fixAnchors_h3_conversion_witness :
    "#sec".data.head? = some '#' ∧
    removeHash "#sec" = "sec" ∧
    hasH3List ([] : List HtmlNode) "sec" = false ∧
    hasH3Top (.elem "div" [] [.text "body"]) (removeHash "#zzz") = false ∧
    (fixAnchors ["#sec"]
        (.elem "div" [] [.elem "h3" [("id", "sec")] [.text "  Results  "]])
      = .elem "div" []
          [.elem "a" [("id", "sec")] [.text "", .elem "h3" [] [.text "Results"]]] ∧
     fixAnchors ["#zzz"] (.elem "div" [] [.text "body"]) = .elem "div" [] [.text "body"]) :=
  ⟨rfl, rfl, rfl, rfl,
    fixAnchors_h3_conversion "#sec" "sec" "div" [] [] [] [] [.text "  Results  "]
      (.elem "div" [] [.text "body"]) "#zzz" rfl rfl rfl rfl⟩

/-- Claim C9: the `if … logging.info(…)` block of `logLinks` is indented at
function level, outside the `for` loop, so only the final link of the list is
examined and at most one line is appended per call — a page with two
`html`-matching links gets one log line (for the last link), not one line per
link as the claim states. -/
theorem logLinks_logs_only_last_link :
    logLinks [⟨"pageA.html", "first link"⟩, ⟨"pageB.html", "second link"⟩]
        "/sites/x/SitePages/p.aspx"
      = some ["Link: pageB.html. Text: second link. URL: /sites/x/SitePages/p.aspx  "] ∧
    logLinks [⟨"pageA.html", "first link"⟩] "/sites/x/SitePages/p.aspx"
      = some ["Link: pageA.html. Text: first link. URL: /sites/x/SitePages/p.aspx  "] :=
  ⟨rfl, rfl⟩

theorem getSPPageCanvas_parts (g : GuidSupply) (t : HtmlNode) (c : List CanvasBlock)
    (hc : getSPPageCanvas g t = some c) :
    ∃ t2 recs n2, replaceImgsTop g t 0 = some (t2, recs, n2) ∧
      c = recs.map mkImageBlock ++ [.richText rtePartId t2, .settings] := by
  unfold getSPPageCanvas at hc
  match hrep : replaceImgsTop g t 0 with
  | none => rw [hrep] at hc; simp at hc
  | some (t2, recs, n2) =>
    rw [hrep] at hc
    simp at hc
    exact ⟨t2, recs, n2, rfl, hc.symm⟩

/-- Claim C3: a successfully built canvas consists of exactly one image block
per embedded image (in document order), followed by exactly one rich-text block
and, last, exactly one settings block — also when the content has zero images;
and the placeholder markers inside the rich-text markup are in order-preserving
bijection with the emitted image blocks, each carrying that image block's
identifier.  The content is assumed to carry no pre-existing placeholder
markers, as a parsed Confluence export never does. -/
theorem getSPPageCanvas_structure (g : GuidSupply) (t : HtmlNode) (c : List CanvasBlock)
    (hc : getSPPageCanvas g t = some c) (hp : placeholdersNode t = []) :
    c.map controlTypeOf = List.replicate (countImgsTop t) 3 ++ [4, 0] ∧
    (imageIds c).length = countImgsTop t ∧
    (richTexts c).map (fun p => placeholdersNode p.2) = [imageIds c] := by
  obtain ⟨t2, recs, n2, hrep, rfl⟩ := getSPPageCanvas_parts g t c hc
  have hs := replaceImgsTop_spec g t 0 t2 recs n2 hrep
  refine ⟨?_, ?_, ?_⟩
  · rw [controlTypes_build, hs.1]
  · rw [imageIds_build, List.length_map, hs.1]
  · rw [richTexts_build, imageIds_build]
    simp [hs.2.2.2 hp]

/-- Witness for claim C3: a concrete one-image fragment. -/
theorem getSPPageCanvas_structure_witness :
    getSPPageCanvas retrySupplyA imgContent = some retryCanvasA ∧
    placeholdersNode imgContent = [] ∧
    (retryCanvasA.map controlTypeOf
        = List.replicate (countImgsTop imgContent) 3 ++ [4, 0] ∧
      (imageIds retryCanvasA).length = countImgsTop imgContent ∧
      (richTexts retryCanvasA).map (fun p => placeholdersNode p.2)
        = [imageIds retryCanvasA]) :=
  ⟨rfl, rfl, getSPPageCanvas_structure retrySupplyA imgContent retryCanvasA rfl rfl⟩

/-- Claim C6, counterexample: block identifiers are not fresh across builds.
Two builds of the same page with entirely disjoint guid draws (a retry) both
emit a rich-text block carrying the fixed identifier
`7802ec32-078a-42a7-b455-8eae2538781f`, so two builds do produce a block with
the same identifier — only the image-block identifiers are fresh per build. -/
theorem canvas_rebuild_shares_rich_text_id_cex :
    getSPPageCanvas retrySupplyA imgContent = some retryCanvasA ∧
    getSPPageCanvas retrySupplyB imgContent = some retryCanvasB ∧
    imageIds retryCanvasA ≠ imageIds retryCanvasB ∧
    rtePartId ∈ blockIds retryCanvasA ∧ rtePartId ∈ blockIds retryCanvasB := by
  exact ⟨rfl, rfl, by decide, by decide, by decide⟩

/-- Claim C6 (amended): within one build all block identifiers are distinct
provided the drawn guids are pairwise distinct and avoid the fixed rich-text
id; across two builds the image-block identifiers are disjoint whenever the
guid draws are (fresh guids), but both builds always contain the fixed
rich-text identifier `rtePartId` — identifiers are not fresh across builds. -/
theorem canvas_identifier_uniqueness
    (g g' : GuidSupply) (t t' : HtmlNode) (c c' : List CanvasBlock)
    (hc : getSPPageCanvas g t = some c) (hc' : getSPPageCanvas g' t' = some c')
    (hnd : (guidSeg g 0 (countImgsTop t)).Nodup)
    (hrte : rtePartId ∉ guidSeg g 0 (countImgsTop t))
    (hdisj : (guidSeg g 0 (countImgsTop t)).all
        (fun x => !((guidSeg g' 0 (countImgsTop t')).contains x)) = true) :
    (blockIds c).Nodup ∧ rtePartId ∈ blockIds c ∧ rtePartId ∈ blockIds c' ∧
    (imageIds c).all (fun x => !((imageIds c').contains x)) = true := by
  obtain ⟨t2, recs, n2, hrep, rfl⟩ := getSPPageCanvas_parts g t c hc
  obtain ⟨t2', recs', n2', hrep', rfl⟩ := getSPPageCanvas_parts g' t' c' hc'
  have hs := replaceImgsTop_spec g t 0 t2 recs n2 hrep
  have hs' := replaceImgsTop_spec g' t' 0 t2' recs' n2' hrep'
  have hguid : recs.map ImgRec.guid = guidSeg g 0 (countImgsTop t) := hs.2.2.1
  have hguid' : recs'.map ImgRec.guid = guidSeg g' 0 (countImgsTop t') := hs'.2.2.1
  refine ⟨?_, ?_, ?_, ?_⟩
  · rw [blockIds_build, hguid]
    refine List.Nodup.append hnd (by simp) ?_
    intro a ha hmem
    simp at hmem
    subst hmem
    exact hrte ha
  · rw [blockIds_build]; simp
  · rw [blockIds_build]; simp
  · rw [imageIds_build, imageIds_build, hguid, hguid']
    exact hdisj

/-- Witness for claim C6 (amended): the two concrete one-image builds. -/
theorem canvas_identifier_uniqueness_witness :
    getSPPageCanvas retrySupplyA imgContent = some retryCanvasA ∧
    getSPPageCanvas retrySupplyB imgContent = some retryCanvasB ∧
    (guidSeg retrySupplyA 0 (countImgsTop imgContent)).Nodup ∧
    rtePartId ∉ guidSeg retrySupplyA 0 (countImgsTop imgContent) ∧
    (guidSeg retrySupplyA 0 (countImgsTop imgContent)).all
        (fun x => !((guidSeg retrySupplyB 0 (countImgsTop imgContent)).contains x)) = true ∧
    ((blockIds retryCanvasA).Nodup ∧
      rtePartId ∈ blockIds retryCanvasA ∧ rtePartId ∈ blockIds retryCanvasB ∧
      (imageIds retryCanvasA).all
          (fun x => !((imageIds retryCanvasB).contains x)) = true) :=
  ⟨rfl, rfl, by decide, by decide, by decide,
    canvas_identifier_uniqueness retrySupplyA retrySupplyB imgContent imgContent
      retryCanvasA retryCanvasB rfl rfl (by decide) (by decide) (by decide)⟩

/-- Claim C1, counterexample: a failed Store round trip on one page aborts the
whole run.  With the first index entry hitting a store failure
(`add_edit_page` re-raises), `parse_confluence_HTML` terminates with `False`
after that page: the second entry — which would have migrated fine, as the
second conjunct shows — is never processed. -/
theorem parse_store_failure_cex :
    parse_confluence_HTML runSupply true [storeFailPageEnv, okPageEnv]
      = (false, [PageStepResult.aborted]) ∧
    processPage runSupply okPageEnv = PageStepResult.renamed := ⟨rfl, rfl⟩

/-- Claim C1 (amended): a missing page file and empty main content are
per-page recoverable — the loop records the skip and continues — and a run
whose pages all avoid exceptions processes every index entry; but a failed
Store round trip (an exception re-raised by `add_edit_page`) terminates the
run without processing the remaining entries, and an unreadable export root or
missing index file terminates it before any page. -/
theorem parse_per_page_failure_semantics
    (g : GuidSupply) (envs : List PageEnv) (envM envE envS : PageEnv)
    (mcE mcS : HtmlNode) (cv : List CanvasBlock) (rest : List PageEnv)
    (hall : ∀ x ∈ envs, processPage g x ≠ PageStepResult.aborted)
    (hm : envM.fileExists = false)
    (he1 : envE.fileExists = true) (he2 : envE.content = some mcE)
    (he3 : isEmptyContent mcE = true)
    (hs1 : envS.fileExists = true) (hs2 : envS.content = some mcS)
    (hs3 : isEmptyContent mcS = false)
    (hs4 : getSPPageCanvas g (fixAnchors (findLinksTop mcS) mcS) = some cv)
    (hs5 : envS.store.shellRaises = true) :
    processPage g envM = PageStepResult.missingFile ∧
    processPage g envE = PageStepResult.skippedEmpty ∧
    parse_confluence_HTML g true envs = (true, envs.map (processPage g)) ∧
    parse_confluence_HTML g true (envS :: rest) = (false, [PageStepResult.aborted]) ∧
    parse_confluence_HTML g false envs = (false, []) := by
  have hPm : processPage g envM = PageStepResult.missingFile := by
    simp [processPage, hm]
  have hPe : processPage g envE = PageStepResult.skippedEmpty := by
    simp [processPage, he1, he2, he3]
  have hPs : processPage g envS = PageStepResult.aborted := by
    simp [processPage, hs1, hs2, hs3, hs4, add_edit_page, hs5]
  refine ⟨hPm, hPe, ?_, ?_, rfl⟩
  · unfold parse_confluence_HTML
    simp [parseLoop_all_ok g envs hall]
  · unfold parse_confluence_HTML
    simp [parseLoop, hPs]

/-- Witness for claim C1 (amended): a concrete run of a missing-file entry, an
empty page and a healthy page, and a concrete aborting run. -/
theorem parse_per_page_failure_semantics_witness :
    (∀ x ∈ [missingFilePageEnv, emptyPageEnv, okPageEnv],
        processPage runSupply x ≠ PageStepResult.aborted) ∧
    missingFilePageEnv.fileExists = false ∧
    emptyPageEnv.fileExists = true ∧
    emptyPageEnv.content = some (.elem "div" [] [.text "   "]) ∧
    isEmptyContent (.elem "div" [] [.text "   "]) = true ∧
    storeFailPageEnv.fileExists = true ∧
    storeFailPageEnv.content = some plainContent ∧
    isEmptyContent plainContent = false ∧
    getSPPageCanvas runSupply (fixAnchors (findLinksTop plainContent) plainContent)
      = some [.richText rtePartId plainContent, .settings] ∧
    storeFailPageEnv.store.shellRaises = true ∧
    (processPage runSupply missingFilePageEnv = PageStepResult.missingFile ∧
      processPage runSupply emptyPageEnv = PageStepResult.skippedEmpty ∧
      parse_confluence_HTML runSupply true [missingFilePageEnv, emptyPageEnv, okPageEnv]
        = (true, [PageStepResult.missingFile, PageStepResult.skippedEmpty,
            PageStepResult.renamed]) ∧
      parse_confluence_HTML runSupply true (storeFailPageEnv :: [okPageEnv])
        = (false, [PageStepResult.aborted]) ∧
      parse_confluence_HTML runSupply false [missingFilePageEnv, emptyPageEnv, okPageEnv]
        = (false, [])) :=
  ⟨by decide, rfl, rfl, rfl, rfl, rfl, rfl, rfl, rfl, rfl,
    parse_per_page_failure_semantics runSupply
      [missingFilePageEnv, emptyPageEnv, okPageEnv]
      missingFilePageEnv emptyPageEnv storeFailPageEnv
      (.elem "div" [] [.text "   "]) plainContent
      [.richText rtePartId plainContent, .settings] [okPageEnv]
      (by decide) rfl rfl rfl rfl rfl rfl rfl rfl rfl⟩

/-- Claim C4: on a page whose HTML has no `#main-content` container,
`select_one` returns `None` and `len(main_content.contents)` raises
`AttributeError`, which the function-level handler turns into a `False` return:
the run aborts and the remaining entries are never processed — extraction does
not return a skip for the absent case.  The empty-content case, by contrast,
does skip and continue, as the last conjunct shows. -/
theorem absent_main_content_aborts_run :
    parse_confluence_HTML runSupply true [absentContentPageEnv, okPageEnv]
      = (false, [PageStepResult.aborted]) ∧
    processPage runSupply absentContentPageEnv = PageStepResult.aborted ∧
    processPage runSupply emptyPageEnv = PageStepResult.skippedEmpty := ⟨rfl, rfl, rfl⟩

/-- Claim C5: the completion rename is not guarded by canvas persistence.
Against a store whose post-publish item query returns no rows, `add_edit_page`
returns `None` after publishing the shell but before the canvas round trip;
for a page without links the driver then still reaches the rename — the source
file is marked complete on a path where the canvas was never attached. -/
theorem rename_without_canvas_persisted :
    add_edit_page noItemStore = AddEditResult.noItem ∧
    processPage runSupply noItemPageEnv = PageStepResult.renamed := ⟨rfl, rfl⟩

/-- Claim C8: uploading a file whose name already exists in the target folder
with `overwrite = false` records a "Not uploaded: File exists and overwrite is
set to false" entry carrying the existing remote descriptor (name and
server-relative URL), performs no upload and leaves the remote folder state
unchanged. -/
theorem add_attachments_skip_existing
    (localFiles : List String) (uploadUrl : String → String)
    (folder : List FileDescriptor) (p : String) (d : FileDescriptor)
    (ds : List FileDescriptor)
    (hl : localFiles.contains p = true)
    (hf : folder.filter (fun e => e.name == basename p) = d :: ds) :
    add_attachments localFiles uploadUrl [p] false folder
      = ([(p, { result := "Not uploaded: File exists and overwrite is set to false",
                name := some d.name, serverRelativeUrl := some d.serverRelativeUrl })],
         folder) := by
  have hmem : p ∈ localFiles := by simpa using hl
  simp [add_attachments, add_attachments_step, hl, hf, hmem]

/-- Witness for claim C8 at a concrete folder holding the file already. -/
theorem add_attachments_skip_existing_witness :
    (["export/Intro/img1.png"].contains "export/Intro/img1.png" = true) ∧
    ([(⟨"img1.png", "/sites/x/assets/Intro/img1.png"⟩ : FileDescriptor)].filter
        (fun e => e.name == basename "export/Intro/img1.png")
      = [⟨"img1.png", "/sites/x/assets/Intro/img1.png"⟩]) ∧
    add_attachments ["export/Intro/img1.png"] (fun nm => "/up/" ++ nm)
        ["export/Intro/img1.png"] false
        [⟨"img1.png", "/sites/x/assets/Intro/img1.png"⟩]
      = ([("export/Intro/img1.png",
           { result := "Not uploaded: File exists and overwrite is set to false",
             name := some "img1.png",
             serverRelativeUrl := some "/sites/x/assets/Intro/img1.png" })],
         [⟨"img1.png", "/sites/x/assets/Intro/img1.png"⟩]) :=
  ⟨by decide, by decide,
    add_attachments_skip_existing ["export/Intro/img1.png"] (fun nm => "/up/" ++ nm)
      [⟨"img1.png", "/sites/x/assets/Intro/img1.png"⟩] "export/Intro/img1.png"
      ⟨"img1.png", "/sites/x/assets/Intro/img1.png"⟩ [] (by decide) (by decide)⟩
